import Mathlib

/-!
Verification of the bundled-negotiation state machine and the link-quality
probe engine of the webrtc-testing repository
(src/p2p-exchange/script.js, src/p2p-exchange/speed-test.js,
src/unnamed/part_000), as a shallow embedding in Lean.

ICE candidates are opaque records in the source; they are modelled as Nat
tokens.  Time values (Date.now) and latency/throughput samples are modelled
as rationals.  JS numeric arithmetic on these quantities is exact rational
arithmetic in every formula the program uses (sums, differences, products,
divisions), so the rational model computes the same values the spec states.
-/

/-! ## Bundled negotiation (src/p2p-exchange/script.js) -/

/-- A complete-signaling bundle, the serialized unit exchanged out-of-band.
Mirrors the object literal built in createCompleteOffer and
createCompleteAnswer: a type tag ("offer" or "answer"), the SDP string, and
the ordered candidate list. -/
structure Bundle where
  bundleType : String
  sdp : String
  candidates : List Nat
  deriving DecidableEq, Repr

/-- The offerer-side negotiation state, translated from the global peer
object of script.js together with the publication surface:
publishedBundle is the snapshot serialized into the completeOfferA textarea
by completeSignalingReady (JSON.stringify serializes the value at that
moment, so the textarea holds a frozen snapshot even though, in the JS
heap, completeSignalingData.candidates aliases the live pendingCandidates
array), and readyCount counts how many times completeSignalingReady
published a bundle in the current round. -/
structure PeerSignalingState where
  pendingCandidates : List Nat
  iceGatheringComplete : Bool
  completeSignalingData : Option Bundle
  publishedBundle : Option Bundle
  readyCount : Nat
  deriving DecidableEq, Repr

/-- completeSignalingReady (script.js lines 711-727), on the offerer branch
(getCurrentPeer() is A for the whole round): when completeSignalingData is
set, fold the pending candidates into it and publish the serialized bundle
to the textarea. -/
def completeSignalingReady (s : PeerSignalingState) : PeerSignalingState :=
  match s.completeSignalingData with
  | none => s
  | some b =>
    let b2 : Bundle := { b with candidates := s.pendingCandidates }
    { s with
      completeSignalingData := some b2
      publishedBundle := some b2
      readyCount := s.readyCount + 1 }

/-- The asynchronous events that can hit the offerer after createCompleteOffer
returns: onicecandidate with a real candidate, onicecandidate with the null
sentinel (gathering complete), and the 5000 ms timeout callback that
createCompleteOffer schedules (script.js lines 697-704). -/
inductive IceEvent where
  | candidate (c : Nat)
  | gatheringDone
  | gatherTimeout
  deriving DecidableEq, Repr

/-- One event step, translated from the peer.pc.onicecandidate handler
installed by initializePeerConnection (script.js lines 562-589) and from the
body of the timeout callback in createCompleteOffer (script.js lines
698-703): a real candidate is appended to pendingCandidates; the null
candidate sets iceGatheringComplete and, when completeSignalingData is
already set, calls completeSignalingReady; the timeout callback calls
completeSignalingReady only under its not-yet-complete guard. -/
def onIceEvent (s : PeerSignalingState) : IceEvent → PeerSignalingState
  | IceEvent.candidate c =>
      { s with pendingCandidates := s.pendingCandidates ++ [c] }
  | IceEvent.gatheringDone =>
      let s2 := { s with iceGatheringComplete := true }
      if s2.completeSignalingData.isSome then completeSignalingReady s2 else s2
  | IceEvent.gatherTimeout =>
      if s.iceGatheringComplete then s else completeSignalingReady s

/-- Run a sequence of ICE events against the offerer state. -/
def runIceEvents (s : PeerSignalingState) (es : List IceEvent) : PeerSignalingState :=
  es.foldl onIceEvent s

/-- The offerer state right after createCompleteOffer has set the local
description and stored completeSignalingData (script.js lines 688-692):
initializePeerConnection reset pendingCandidates and iceGatheringComplete,
and the bundle holds the offer SDP with an empty candidate list. -/
def afterOffer (sdp : String) : PeerSignalingState :=
  { pendingCandidates := []
    iceGatheringComplete := false
    completeSignalingData := some { bundleType := "offer", sdp := sdp, candidates := [] }
    publishedBundle := none
    readyCount := 0 }

/-! ## Applying remote bundles (createCompleteAnswer, setCompleteAnswer) -/

/-- The JS blank test used by the input guards: completeOfferText.trim() is
falsy exactly when every character of the pasted text is whitespace. -/
def isBlankText (s : String) : Bool :=
  s.data.all Char.isWhitespace

/-- The outcome of JSON.parse on the pasted text, at the level of the two
properties this program reads; none for a field means the property is
absent (undefined) on the parsed record. -/
structure JsonBundle where
  sdp : Option String
  candidates : Option (List Nat)
  deriving DecidableEq, Repr

/-- Modelled from the spec: the Transport Facade (the external
RTCPeerConnection engine, outside this repository) applies a remote
description, rejecting a missing or empty sdp with a NegotiationError
(spec sections 6 and 7); an undefined sdp defaults to the empty string at
the WebIDL boundary and is likewise rejected for an offer or answer. -/
def setRemoteDescriptionFacade (sdp : Option String) : Except String Unit :=
  match sdp with
  | none => Except.error "NegotiationError: missing sdp"
  | some s => if s = "" then Except.error "NegotiationError: empty sdp" else Except.ok ()

/-- The externally observable outcome of createCompleteAnswer: whether the
blank-input alert fired, whether the catch block logged an error, which sdp
was applied as the remote description (none when no description was
applied), which candidates were replayed into addIceCandidate in order, and
whether a local answer was created. -/
structure CreateAnswerResult where
  alerted : Bool
  errorLogged : Bool
  remoteDescriptionSet : Option String
  candidatesAdded : List Nat
  localAnswerCreated : Bool
  deriving DecidableEq, Repr

/-- createCompleteAnswer (script.js lines 729-783): text is the raw textarea
content and parsed the JSON.parse outcome (none when parsing throws, caught
by the surrounding try).  Reading completeOffer.candidates.length in the
debug line throws a TypeError when the parsed record has no candidates
property, caught before any facade call.  The subsequent gathering phase is
the same machine as afterOffer and is not repeated here. -/
def createCompleteAnswer (text : String) (parsed : Option JsonBundle) : CreateAnswerResult :=
  if isBlankText text then
    { alerted := true, errorLogged := false, remoteDescriptionSet := none
      candidatesAdded := [], localAnswerCreated := false }
  else
    match parsed with
    | none =>
      { alerted := false, errorLogged := true, remoteDescriptionSet := none
        candidatesAdded := [], localAnswerCreated := false }
    | some b =>
      match b.candidates with
      | none =>
        { alerted := false, errorLogged := true, remoteDescriptionSet := none
          candidatesAdded := [], localAnswerCreated := false }
      | some cs =>
        match setRemoteDescriptionFacade b.sdp with
        | Except.error _ =>
          { alerted := false, errorLogged := true, remoteDescriptionSet := none
            candidatesAdded := [], localAnswerCreated := false }
        | Except.ok _ =>
          { alerted := false, errorLogged := false, remoteDescriptionSet := b.sdp
            candidatesAdded := cs, localAnswerCreated := true }

/-- The externally observable outcome of setCompleteAnswer:
addedCountLogged is the N of the final debug line (Added N remote
candidates), recorded only when the function reaches that line. -/
structure SetAnswerResult where
  alerted : Bool
  errorLogged : Bool
  remoteDescriptionSet : Option String
  candidatesAdded : List Nat
  addedCountLogged : Option Nat
  deriving DecidableEq, Repr

/-- setCompleteAnswer as written in the first script.js copy (lines 330-356)
and in src/unnamed/part_000 (lines 299-325): after setting the remote
description from the answer, every bundled candidate is replayed into
addIceCandidate in array order. -/
def setCompleteAnswerLoop (text : String) (parsed : Option JsonBundle) : SetAnswerResult :=
  if isBlankText text then
    { alerted := true, errorLogged := false, remoteDescriptionSet := none
      candidatesAdded := [], addedCountLogged := none }
  else
    match parsed with
    | none =>
      { alerted := false, errorLogged := true, remoteDescriptionSet := none
        candidatesAdded := [], addedCountLogged := none }
    | some b =>
      match b.candidates with
      | none =>
        { alerted := false, errorLogged := true, remoteDescriptionSet := none
          candidatesAdded := [], addedCountLogged := none }
      | some cs =>
        match setRemoteDescriptionFacade b.sdp with
        | Except.error _ =>
          { alerted := false, errorLogged := true, remoteDescriptionSet := none
            candidatesAdded := [], addedCountLogged := none }
        | Except.ok _ =>
          { alerted := false, errorLogged := false, remoteDescriptionSet := b.sdp
            candidatesAdded := cs, addedCountLogged := some cs.length }

/-- setCompleteAnswer as written in the second, modular script.js copy
(lines 785-811): identical to setCompleteAnswerLoop except that the
addIceCandidate replay loop (lines 801-803) is commented out, so no
candidate is handed to the Transport Facade, while the debug line still
logs Added N remote candidates. -/
def setCompleteAnswerModular (text : String) (parsed : Option JsonBundle) : SetAnswerResult :=
  if isBlankText text then
    { alerted := true, errorLogged := false, remoteDescriptionSet := none
      candidatesAdded := [], addedCountLogged := none }
  else
    match parsed with
    | none =>
      { alerted := false, errorLogged := true, remoteDescriptionSet := none
        candidatesAdded := [], addedCountLogged := none }
    | some b =>
      match b.candidates with
      | none =>
        { alerted := false, errorLogged := true, remoteDescriptionSet := none
          candidatesAdded := [], addedCountLogged := none }
      | some cs =>
        match setRemoteDescriptionFacade b.sdp with
        | Except.error _ =>
          { alerted := false, errorLogged := true, remoteDescriptionSet := none
            candidatesAdded := [], addedCountLogged := none }
        | Except.ok _ =>
          { alerted := false, errorLogged := false, remoteDescriptionSet := b.sdp
            candidatesAdded := [], addedCountLogged := some cs.length }

/-! ## Link probe engine (src/p2p-exchange/speed-test.js) -/

/-- The speedTest state object (speed-test.js lines 8-23).  The three
interval fields hold the setInterval handles (none before the first run;
clearInterval never nulls them).  Numeric samples and timestamps are
rationals; byte counters and configuration are naturals. -/
structure SpeedTestState where
  isRunning : Bool
  startTime : Option ℚ
  endTime : Option ℚ
  bytesSent : Nat
  bytesReceived : Nat
  packetsLost : Nat
  latencyTests : List ℚ
  throughputTests : List ℚ
  testInterval : Option Nat
  latencyInterval : Option Nat
  statsInterval : Option Nat
  testDuration : Nat
  packetSize : Nat
  packetFrequency : Nat
  deriving DecidableEq, Repr

/-- The host timer table: ids handed out by setInterval and the set of
interval timers still active.  Browser interval ids are positive, so the
stored handles are always truthy in the JS guards. -/
structure TimerSys where
  nextId : Nat
  active : List Nat
  deriving DecidableEq, Repr

/-- setInterval: allocate a fresh id and activate it. -/
def setIntervalSys (t : TimerSys) : Nat × TimerSys :=
  (t.nextId, { nextId := t.nextId + 1, active := t.active ++ [t.nextId] })

/-- clearInterval under the JS truthiness guard
(if (speedTest.xInterval) clearInterval(speedTest.xInterval)). -/
def clearIntervalOpt (t : TimerSys) (o : Option Nat) : TimerSys :=
  match o with
  | none => t
  | some i => { t with active := t.active.filter (fun j => j != i) }

/-- resetSpeedTestState (speed-test.js lines 218-228): zero the byte and
loss counters, empty both sample sequences, and clear any of the three
intervals that are set (their handle fields are left as they were). -/
def resetSpeedTestState (st : SpeedTestState) (ts : TimerSys) : SpeedTestState × TimerSys :=
  let st2 := { st with
    bytesSent := 0
    bytesReceived := 0
    packetsLost := 0
    latencyTests := []
    throughputTests := [] }
  let ts2 := clearIntervalOpt (clearIntervalOpt (clearIntervalOpt ts st2.testInterval)
    st2.latencyInterval) st2.statsInterval
  (st2, ts2)

/-- The outcome of startSpeedTest: the new probe state and timer table,
plus which of the two early-return notices fired (the not-ready alert or
the already-running warning log). -/
structure StartResult where
  state : SpeedTestState
  timers : TimerSys
  alertedNotReady : Bool
  warnedAlreadyRunning : Bool
  deriving DecidableEq, Repr

/-- startSpeedTest (speed-test.js lines 140-185).  channelOpen models
peer.dc existing with readyState open; now is Date.now(); the three ui
arguments are the values updateSpeedTestSettings reads from the selects.
On the happy path it resets the state, marks the run active, and starts
the three periodic intervals (packet stream, latency pinger, statistics
sampler) in that order.  The auto-stop is a one-shot setTimeout whose
callback re-checks isRunning; it is not one of the periodic intervals and
is not entered in the timer table. -/
def startSpeedTest (channelOpen : Bool) (now : ℚ)
    (uiDuration uiPacketSize uiPacketFrequency : Nat)
    (st : SpeedTestState) (ts : TimerSys) : StartResult :=
  if !channelOpen then
    { state := st, timers := ts, alertedNotReady := true, warnedAlreadyRunning := false }
  else if st.isRunning then
    { state := st, timers := ts, alertedNotReady := false, warnedAlreadyRunning := true }
  else
    let st1 := { st with
      testDuration := uiDuration
      packetSize := uiPacketSize
      packetFrequency := uiPacketFrequency }
    let p2 := resetSpeedTestState st1 ts
    let st3 := { p2.1 with isRunning := true, startTime := some now }
    let a1 := setIntervalSys p2.2
    let st4 := { st3 with testInterval := some a1.1 }
    let a2 := setIntervalSys a1.2
    let st5 := { st4 with latencyInterval := some a2.1 }
    let a3 := setIntervalSys a2.2
    let st6 := { st5 with statsInterval := some a3.1 }
    { state := st6, timers := a3.2, alertedNotReady := false, warnedAlreadyRunning := false }

/-- stopSpeedTest (speed-test.js lines 190-213): early return when no run is
active; otherwise mark the run stopped, record the end timestamp, clear the
three intervals, and report the final results (calculateFinalResults is
pure logging over the unchanged samples). -/
def stopSpeedTest (now : ℚ) (st : SpeedTestState) (ts : TimerSys) :
    SpeedTestState × TimerSys :=
  if !st.isRunning then (st, ts)
  else
    let st2 := { st with isRunning := false, endTime := some now }
    let ts2 := clearIntervalOpt (clearIntervalOpt (clearIntervalOpt ts st2.testInterval)
      st2.latencyInterval) st2.statsInterval
    (st2, ts2)

/-- The metric display surface touched by clearSpeedTestResults: the four
metric labels, the progress bar and text, and the log contents. -/
structure SpeedTestUI where
  throughputText : String
  latencyText : String
  packetLossText : String
  jitterText : String
  progressWidth : String
  progressText : String
  logLines : List String
  deriving DecidableEq, Repr

/-- clearSpeedTestResults (speed-test.js lines 433-450): reset the metric
display, the progress indicators and the log, then log the cleared notice.
It performs only these DOM writes and never touches the speedTest record. -/
def clearSpeedTestResults (st : SpeedTestState) (_ui : SpeedTestUI) :
    SpeedTestState × SpeedTestUI :=
  (st,
   { throughputText := "- Mbps"
     latencyText := "- ms"
     packetLossText := "- %"
     jitterText := "- ms"
     progressWidth := "0%"
     progressText := "Ready to test"
     logLines := ["Results cleared"] })

/-- One statistics-sampler tick (speed-test.js lines 292-317), restricted to
the throughput-sample computation: bytesDelta and timeDelta exactly as in
the source (lastUpdate and lastBytesSent are the closure variables of
startStatsCollection; timeDelta is in seconds), pushing the instantaneous
Mbps figure when timeDelta is positive. -/
def statsCollectionTick (now lastUpdate : ℚ) (lastBytesSent : ℚ)
    (st : SpeedTestState) : SpeedTestState :=
  let bytesDelta : ℚ := (st.bytesSent : ℚ) - lastBytesSent
  let timeDelta : ℚ := (now - lastUpdate) / 1000
  let currentThroughput : ℚ := (bytesDelta * 8) / (timeDelta * 1024 * 1024)
  if 0 < timeDelta then
    { st with throughputTests := st.throughputTests ++ [currentThroughput] }
  else st

/-- The JS reduce with initial accumulator 0 used for every sum in
updateSpeedMetrics and calculateFinalResults. -/
def jsReduceSum (xs : List ℚ) : ℚ :=
  xs.foldl (fun a b => a + b) 0

/-- Average throughput displayed live by updateSpeedMetrics (speed-test.js
lines 376-379): the mean of the instantaneous samples, 0 when none. -/
def avgThroughputLive (xs : List ℚ) : ℚ :=
  if 0 < xs.length then jsReduceSum xs / (xs.length : ℚ) else 0

/-- Average latency as computed in updateSpeedMetrics and
calculateFinalResults: the mean of the latency samples, 0 when none. -/
def avgLatencyOf (xs : List ℚ) : ℚ :=
  if 0 < xs.length then jsReduceSum xs / (xs.length : ℚ) else 0

/-- The variance computed under Math.sqrt in the jitter calculation
(speed-test.js lines 388 and 417): the population variance of the latency
samples; jitter itself is initialized to 0 and assigned sqrt of this value
only in the nonempty branch, so the reported jitter is the square root of
this quantity and is 0 exactly when this quantity is 0. -/
def jitterVarianceOf (xs : List ℚ) : ℚ :=
  if 0 < xs.length then
    (xs.foldl (fun acc lat => acc + (lat - avgLatencyOf xs) ^ 2) 0) / (xs.length : ℚ)
  else 0

/-- Math.min over a spread array, applied by calculateFinalResults to the
guarded-nonempty latency list. -/
def jsMathMin (xs : List ℚ) : ℚ :=
  match xs with
  | [] => 0
  | h :: t => t.foldl min h

/-- Math.max over a spread array, applied by calculateFinalResults to the
guarded-nonempty latency list. -/
def jsMathMax (xs : List ℚ) : ℚ :=
  match xs with
  | [] => 0
  | h :: t => t.foldl max h

/-- minLatency in calculateFinalResults (speed-test.js lines 408-414):
initialized 0 and assigned Math.min of the samples when any exist. -/
def finalMinLatency (xs : List ℚ) : ℚ :=
  if 0 < xs.length then jsMathMin xs else 0

/-- maxLatency in calculateFinalResults (speed-test.js lines 409-415):
initialized 0 and assigned Math.max of the samples when any exist. -/
def finalMaxLatency (xs : List ℚ) : ℚ :=
  if 0 < xs.length then jsMathMax xs else 0

/-- The final-report whole-run average throughput (calculateFinalResults,
speed-test.js lines 402-405): testDuration = (endTime - startTime) / 1000
seconds, totalMbits = bytesSent * 8 / (1024 * 1024), and the average is
totalMbits / testDuration. -/
def finalAvgThroughput (bytesSent : ℚ) (startTime endTime : ℚ) : ℚ :=
  ((bytesSent * 8) / (1024 * 1024)) / ((endTime - startTime) / 1000)

/-! ## Inbound packet handling -/

/-- A parsed inbound packet at the level of the fields the handlers read.
pid stands for the id field (and carries originalId on an echo reply);
candidates of both numeric and string ids are modelled as Nat tokens. -/
structure Packet where
  ptype : Option String
  pid : Option Nat
  timestamp : Option ℚ
  originalTimestamp : Option ℚ
  deriving DecidableEq, Repr

/-- An inbound channel message: either raw text on which JSON.parse throws,
or a parsed JSON record together with the length of its raw string form
(event.data.length, used for the bytesReceived accounting). -/
inductive ChannelMsg where
  | rawText (s : String)
  | jsonObj (p : Packet) (rawLen : Nat)
  deriving DecidableEq, Repr

/-- The four recognized speed-test type tags (script.js line 646). -/
def speedTestTypes : List String :=
  ["speed_test", "speed_test_echo", "ping", "pong"]

/-- The recognition test in the modular channel.onmessage (script.js lines
644-652): the message parses as JSON, has a truthy type property, and that
type is one of the four tags; a parse failure falls to the catch and is
treated as a regular message. -/
def isSpeedTestPacket (m : ChannelMsg) : Bool :=
  match m with
  | ChannelMsg.rawText _ => false
  | ChannelMsg.jsonObj p _ =>
    match p.ptype with
    | none => false
    | some t => speedTestTypes.contains t

/-- Where the modular channel.onmessage routes an inbound message. -/
inductive MsgRoute where
  | speedTestRoute
  | chatRoute
  deriving DecidableEq, Repr

/-- handleSpeedTestPacket (speed-test.js lines 323-367).  Returns the
updated probe state and the replies sent back over the channel.  A raw
text message makes JSON.parse throw; the catch ignores it.  A load packet
adds the raw length to bytesReceived and echoes; a ping is answered with a
pong carrying the original timestamp; a pong appends now minus
originalTimestamp to the latency samples (a pong lacking the field would
push NaN in JS; the model reads it with default 0, which no claim
exercises); any other tag matches no switch case and has no effect. -/
def handleSpeedTestPacket (channelOpen : Bool) (now : ℚ) (m : ChannelMsg)
    (st : SpeedTestState) : SpeedTestState × List Packet :=
  match m with
  | ChannelMsg.rawText _ => (st, [])
  | ChannelMsg.jsonObj p rawLen =>
    match p.ptype with
    | some "speed_test" =>
      let st2 := { st with bytesReceived := st.bytesReceived + rawLen }
      if channelOpen then
        (st2, [{ ptype := some "speed_test_echo", pid := p.pid
                 timestamp := some now, originalTimestamp := none }])
      else (st2, [])
    | some "speed_test_echo" => (st, [])
    | some "ping" =>
      if channelOpen then
        (st, [{ ptype := some "pong", pid := p.pid
                timestamp := some now, originalTimestamp := p.timestamp }])
      else (st, [])
    | some "pong" =>
      ({ st with latencyTests := st.latencyTests ++ [now - p.originalTimestamp.getD 0] }, [])
    | _ => (st, [])

/-- channel.onmessage in the modular setupDataChannel (script.js lines
640-659): recognized speed-test packets are forwarded to
handleSpeedTestPacket and suppressed from the chat; every other message,
including text that fails JSON.parse, is routed to the regular chat
handler with the probe state untouched. -/
def onChannelMessage (channelOpen : Bool) (now : ℚ) (m : ChannelMsg)
    (st : SpeedTestState) : SpeedTestState × MsgRoute × List Packet :=
  if isSpeedTestPacket m then
    let r := handleSpeedTestPacket channelOpen now m st
    (r.1, MsgRoute.speedTestRoute, r.2)
  else
    (st, MsgRoute.chatRoute, [])

/-! ## Concrete sample states used to evaluate the operations -/

/-- A concrete idle probe state with accumulated traffic from a finished
run. -/
def sampleProbeState : SpeedTestState :=
  { isRunning := false
    startTime := some 1000
    endTime := some 3000
    bytesSent := 5
    bytesReceived := 4
    packetsLost := 0
    latencyTests := [2]
    throughputTests := [3]
    testInterval := some 1
    latencyInterval := some 2
    statsInterval := some 3
    testDuration := 10
    packetSize := 1024
    packetFrequency := 100 }

/-- The same probe state during an active run. -/
def runningProbeState : SpeedTestState :=
  { sampleProbeState with isRunning := true, endTime := none }

/-- A timer table in which the three intervals of the sample state are
active. -/
def sampleTimers : TimerSys :=
  { nextId := 4, active := [1, 2, 3] }

/-- A display surface holding results from a previous run. -/
def sampleUI : SpeedTestUI :=
  { throughputText := "5.00 Mbps"
    latencyText := "2.0 ms"
    packetLossText := "0 %"
    jitterText := "0.0 ms"
    progressWidth := "100%"
    progressText := "Test completed"
    logLines := ["Speed test completed"] }

/-! ## Helper lemmas -/

/-- A left fold of addition over rationals accumulates onto the initial
value the sum of the list. -/
theorem foldl_add_eq_add_sum (xs : List ℚ) :
    ∀ a : ℚ, xs.foldl (fun x y => x + y) a = a + xs.sum := by
  induction xs with
  | nil => intro a; simp
  | cons h t ih => intro a; rw [List.foldl_cons, ih, List.sum_cons]; ring

/-- A left fold that adds an image of each element accumulates the sum of
the mapped list. -/
theorem foldl_add_map_eq_add_sum (f : ℚ → ℚ) (xs : List ℚ) :
    ∀ a : ℚ, xs.foldl (fun acc v => acc + f v) a = a + (xs.map f).sum := by
  induction xs with
  | nil => intro a; simp
  | cons h t ih => intro a; rw [List.foldl_cons, ih, List.map_cons, List.sum_cons]; ring

/-- Running a batch of candidate-discovery events only appends the
candidates, in emission order, to the pending list. -/
theorem runIceEvents_candidates (cs : List Nat) :
    ∀ s : PeerSignalingState,
      runIceEvents s (cs.map IceEvent.candidate)
        = { s with pendingCandidates := s.pendingCandidates ++ cs } := by
  induction cs with
  | nil => intro s; cases s; simp [runIceEvents]
  | cons c t ih =>
    intro s
    have h1 : runIceEvents s ((c :: t).map IceEvent.candidate)
        = runIceEvents (onIceEvent s (IceEvent.candidate c)) (t.map IceEvent.candidate) := rfl
    rw [h1, ih]
    simp [onIceEvent]

/-- Event runs split over list concatenation. -/
theorem runIceEvents_append (s : PeerSignalingState) (es1 es2 : List IceEvent) :
    runIceEvents s (es1 ++ es2) = runIceEvents (runIceEvents s es1) es2 := by
  simp [runIceEvents, List.foldl_append]

/-- An id is gone from the timer table right after it is cleared. -/
theorem not_mem_clearIntervalOpt_self (t : TimerSys) (i : Nat) :
    i ∉ (clearIntervalOpt t (some i)).active := by
  simp [clearIntervalOpt, List.mem_filter]

/-- Clearing an interval never adds ids to the timer table. -/
theorem mem_active_of_mem_clearIntervalOpt (t : TimerSys) (o : Option Nat) (j : Nat)
    (h : j ∈ (clearIntervalOpt t o).active) : j ∈ t.active := by
  cases o with
  | none => exact h
  | some i =>
    simp only [clearIntervalOpt, List.mem_filter] at h
    exact h.1

/-! ## Claim theorems -/

/-- Claim C1 (code bug): the claim states that setCompleteAnswer replays
every candidate of the answer bundle into addIceCandidate in array order.
The copies at script.js lines 330-356 and part_000 lines 299-325 do so, but
in the modular copy at script.js lines 785-811 the replay loop is commented
out: on a valid answer bundle carrying candidates [3, 7] it hands no
candidate to the Transport Facade while still logging that 2 remote
candidates were added. -/
theorem c1_setCompleteAnswer_modular_drops_candidates :
    (setCompleteAnswerLoop "ans" (some { sdp := some "v=0", candidates := some [3, 7] })).candidatesAdded = [3, 7]
  ∧ (setCompleteAnswerModular "ans" (some { sdp := some "v=0", candidates := some [3, 7] })).candidatesAdded = []
  ∧ (setCompleteAnswerModular "ans" (some { sdp := some "v=0", candidates := some [3, 7] })).addedCountLogged = some 2
  ∧ (setCompleteAnswerModular "ans" (some { sdp := some "v=0", candidates := some [3, 7] })).remoteDescriptionSet = some "v=0" := by
  refine ⟨rfl, rfl, rfl, rfl⟩

/-- Claim C2 counterexample: when the 5000 ms timeout forces completion
first and the real gathering-complete signal arrives afterwards,
completeSignalingReady publishes twice in the same round — the late null
candidate sets iceGatheringComplete and unconditionally re-runs the
completion because completeSignalingData is set, refuting the
exactly-once property as claimed. -/
theorem c2_counterexample_double_completion :
    (runIceEvents (afterOffer "s") [IceEvent.gatherTimeout, IceEvent.gatheringDone]).readyCount = 2 := by
  rfl

/-- Claim C2 amended: in a round whose gathering has not completed, the
timeout forces the bundle ready exactly once with the candidates collected
so far; and the timeout never duplicates a completion that the real signal
already performed, thanks to its iceGatheringComplete guard; but when the
real gathering-complete signal arrives after a timeout-forced completion,
the round completes a second time. -/
theorem c2_forced_completion_exactly_once_guarded (sdp : String) (cs : List Nat) :
    (runIceEvents (afterOffer sdp) (cs.map IceEvent.candidate ++ [IceEvent.gatherTimeout])).readyCount = 1
  ∧ (runIceEvents (afterOffer sdp) (cs.map IceEvent.candidate ++ [IceEvent.gatherTimeout])).publishedBundle
      = some { bundleType := "offer", sdp := sdp, candidates := cs }
  ∧ (runIceEvents (afterOffer sdp) (cs.map IceEvent.candidate ++ [IceEvent.gatheringDone, IceEvent.gatherTimeout])).readyCount = 1
  ∧ (runIceEvents (afterOffer sdp) (cs.map IceEvent.candidate ++ [IceEvent.gatherTimeout, IceEvent.gatheringDone])).readyCount = 2 := by
  refine ⟨?_, ?_, ?_, ?_⟩ <;>
    rw [runIceEvents_append, runIceEvents_candidates cs (afterOffer sdp)] <;>
    simp [afterOffer, runIceEvents, onIceEvent, completeSignalingReady]

/-- Claim C3: createCompleteAnswer rejects every blank input, every input
that fails JSON.parse, and every parsed bundle whose sdp is missing or
empty, with a user-facing notice (the blank-input alert or the caught-error
report), and in all those cases it applies no remote description, replays
no candidate, and creates no local answer. -/
theorem c3_createCompleteAnswer_rejects_bad_input (text : String) (parsed : Option JsonBundle)
    (hbad : isBlankText text = true ∨ parsed = none
      ∨ ∃ b, parsed = some b ∧ (b.sdp = none ∨ b.sdp = some "")) :
    ((createCompleteAnswer text parsed).alerted = true
      ∨ (createCompleteAnswer text parsed).errorLogged = true)
  ∧ (createCompleteAnswer text parsed).remoteDescriptionSet = none
  ∧ (createCompleteAnswer text parsed).candidatesAdded = []
  ∧ (createCompleteAnswer text parsed).localAnswerCreated = false := by
  by_cases ht : isBlankText text
  · simp [createCompleteAnswer, ht]
  · rcases hbad with h | h | ⟨b, hb, hsdp⟩
    · exact absurd h ht
    · subst h
      simp [createCompleteAnswer, ht]
    · subst hb
      cases hc : b.candidates with
      | none => simp [createCompleteAnswer, ht, hc]
      | some cs =>
        rcases hsdp with h0 | h0 <;>
          simp [createCompleteAnswer, ht, hc, h0, setRemoteDescriptionFacade]

/-- Claim C3 witness: a non-JSON pasted offer is rejected with an error and
no remote description is applied. -/
theorem c3_createCompleteAnswer_rejects_bad_input_witness :
    ((createCompleteAnswer "not json" none).alerted = true
      ∨ (createCompleteAnswer "not json" none).errorLogged = true)
  ∧ (createCompleteAnswer "not json" none).remoteDescriptionSet = none
  ∧ (createCompleteAnswer "not json" none).candidatesAdded = []
  ∧ (createCompleteAnswer "not json" none).localAnswerCreated = false :=
  c3_createCompleteAnswer_rejects_bad_input "not json" none (Or.inr (Or.inl rfl))

/-- Claim C4 counterexample: after the timeout completes the round, the
published bundle snapshot holds no candidates; candidate 7 is discovered
after that completion, and the late real gathering-complete signal
republishes the completed bundle now containing 7 — a candidate discovered
after the moment of completion ends up in the completed bundle, refuting
frozenness over all interleavings. -/
theorem c4_counterexample_candidate_after_completion :
    (runIceEvents (afterOffer "s") [IceEvent.gatherTimeout]).publishedBundle
      = some { bundleType := "offer", sdp := "s", candidates := [] }
  ∧ (runIceEvents (afterOffer "s")
        [IceEvent.gatherTimeout, IceEvent.candidate 7, IceEvent.gatheringDone]).publishedBundle
      = some { bundleType := "offer", sdp := "s", candidates := [7] } := by
  refine ⟨rfl, rfl⟩

/-- Claim C4 amended: the bundle snapshot published at a completion holds
exactly the candidates discovered before that completion, and it stays
frozen as long as no second completion occurs — after the real terminal
signal a later timeout never republishes (its guard), and after a
timeout-forced completion later candidate discoveries do not change the
published snapshot; only a late real terminal signal republishes. -/
theorem c4_snapshot_frozen_without_recompletion (sdp : String) (cs1 cs2 : List Nat) :
    (runIceEvents (afterOffer sdp)
        (cs1.map IceEvent.candidate ++ [IceEvent.gatheringDone, IceEvent.gatherTimeout])).publishedBundle
      = some { bundleType := "offer", sdp := sdp, candidates := cs1 }
  ∧ (runIceEvents (afterOffer sdp)
        (cs1.map IceEvent.candidate ++ [IceEvent.gatherTimeout] ++ cs2.map IceEvent.candidate)).publishedBundle
      = some { bundleType := "offer", sdp := sdp, candidates := cs1 } := by
  constructor
  · rw [runIceEvents_append, runIceEvents_candidates cs1 (afterOffer sdp)]
    simp [afterOffer, runIceEvents, onIceEvent, completeSignalingReady]
  · rw [runIceEvents_append, runIceEvents_append, runIceEvents_candidates cs1 (afterOffer sdp),
      runIceEvents_candidates cs2]
    simp [afterOffer, runIceEvents, onIceEvent, completeSignalingReady]

/-- Claim C5 counterexample: clearSpeedTestResults does not reset the
accumulated samples and counters — on a state with bytesSent 5 and
recorded samples it leaves the probe state entirely unchanged, resetting
only the display; the accumulated state is instead reset by
resetSpeedTestState (invoked by the next start). -/
theorem c5_counterexample_clear_does_not_reset :
    (clearSpeedTestResults sampleProbeState sampleUI).1 = sampleProbeState
  ∧ (clearSpeedTestResults sampleProbeState sampleUI).1.bytesSent = 5
  ∧ (clearSpeedTestResults sampleProbeState sampleUI).1.latencyTests = [2]
  ∧ (resetSpeedTestState sampleProbeState sampleTimers).1.bytesSent = 0
  ∧ (resetSpeedTestState sampleProbeState sampleTimers).1.latencyTests = [] := by
  refine ⟨rfl, rfl, rfl, rfl, rfl⟩

/-- Claim C5 amended: stop on an active run marks it stopped, records the
end timestamp, cancels the three periodic intervals (their ids leave the
active timer table), and leaves the accumulated latency samples,
throughput samples, byte counters and loss counter unchanged; the
accumulated state is reset by resetSpeedTestState at the next start, while
clearSpeedTestResults resets only the display. -/
theorem c5_stop_preserves_samples (now : ℚ) (st : SpeedTestState) (ts : TimerSys)
    (i1 i2 i3 : Nat) (hrun : st.isRunning = true)
    (h1 : st.testInterval = some i1) (h2 : st.latencyInterval = some i2)
    (h3 : st.statsInterval = some i3) :
    (stopSpeedTest now st ts).1.isRunning = false
  ∧ (stopSpeedTest now st ts).1.endTime = some now
  ∧ (stopSpeedTest now st ts).1.bytesSent = st.bytesSent
  ∧ (stopSpeedTest now st ts).1.bytesReceived = st.bytesReceived
  ∧ (stopSpeedTest now st ts).1.latencyTests = st.latencyTests
  ∧ (stopSpeedTest now st ts).1.throughputTests = st.throughputTests
  ∧ (stopSpeedTest now st ts).1.packetsLost = st.packetsLost
  ∧ i1 ∉ (stopSpeedTest now st ts).2.active
  ∧ i2 ∉ (stopSpeedTest now st ts).2.active
  ∧ i3 ∉ (stopSpeedTest now st ts).2.active := by
  have hstop : stopSpeedTest now st ts
      = ({ st with isRunning := false, endTime := some now },
         clearIntervalOpt (clearIntervalOpt (clearIntervalOpt ts st.testInterval)
           st.latencyInterval) st.statsInterval) := by
    simp [stopSpeedTest, hrun]
  rw [hstop]
  refine ⟨rfl, rfl, rfl, rfl, rfl, rfl, rfl, ?_, ?_, ?_⟩
  · rw [h1, h2, h3]
    intro hmem
    exact not_mem_clearIntervalOpt_self _ i1
      (mem_active_of_mem_clearIntervalOpt _ _ _
        (mem_active_of_mem_clearIntervalOpt _ _ _ hmem))
  · rw [h2, h3]
    intro hmem
    exact not_mem_clearIntervalOpt_self _ i2
      (mem_active_of_mem_clearIntervalOpt _ _ _ hmem)
  · rw [h3]
    intro hmem
    exact not_mem_clearIntervalOpt_self _ i3 hmem

/-- Claim C5 witness: stopping the running sample state preserves its
accumulated counters and samples and deactivates its three intervals. -/
theorem c5_stop_preserves_samples_witness :
    (stopSpeedTest 4000 runningProbeState sampleTimers).1.isRunning = false
  ∧ (stopSpeedTest 4000 runningProbeState sampleTimers).1.endTime = some 4000
  ∧ (stopSpeedTest 4000 runningProbeState sampleTimers).1.bytesSent = runningProbeState.bytesSent
  ∧ (stopSpeedTest 4000 runningProbeState sampleTimers).1.bytesReceived = runningProbeState.bytesReceived
  ∧ (stopSpeedTest 4000 runningProbeState sampleTimers).1.latencyTests = runningProbeState.latencyTests
  ∧ (stopSpeedTest 4000 runningProbeState sampleTimers).1.throughputTests = runningProbeState.throughputTests
  ∧ (stopSpeedTest 4000 runningProbeState sampleTimers).1.packetsLost = runningProbeState.packetsLost
  ∧ 1 ∉ (stopSpeedTest 4000 runningProbeState sampleTimers).2.active
  ∧ 2 ∉ (stopSpeedTest 4000 runningProbeState sampleTimers).2.active
  ∧ 3 ∉ (stopSpeedTest 4000 runningProbeState sampleTimers).2.active :=
  c5_stop_preserves_samples 4000 runningProbeState sampleTimers 1 2 3 rfl rfl rfl rfl

/-- Claim C6: startSpeedTest rejects with the not-ready alert when the
channel is not open; and whenever a run is already active it is an
idempotent no-op with a warning (not an error): the probe state and the
timer table are returned unchanged, so exactly one probe session and one
set of interval timers exists. -/
theorem c6_start_rejects_and_is_idempotent (channelOpen : Bool) (now : ℚ)
    (d p f : Nat) (st : SpeedTestState) (ts : TimerSys) :
    (channelOpen = false →
      startSpeedTest channelOpen now d p f st ts
        = { state := st, timers := ts, alertedNotReady := true, warnedAlreadyRunning := false })
  ∧ (channelOpen = true → st.isRunning = true →
      startSpeedTest channelOpen now d p f st ts
        = { state := st, timers := ts, alertedNotReady := false, warnedAlreadyRunning := true }) := by
  constructor
  · intro h
    subst h
    rfl
  · intro h hrun
    subst h
    simp [startSpeedTest, hrun]

/-- Claim C6 witness: a second start during the running sample state only
warns and leaves the session and timers unchanged. -/
theorem c6_start_rejects_and_is_idempotent_witness :
    startSpeedTest true 0 10 1024 100 runningProbeState sampleTimers
      = { state := runningProbeState, timers := sampleTimers
          alertedNotReady := false, warnedAlreadyRunning := true } :=
  (c6_start_rejects_and_is_idempotent true 0 10 1024 100 runningProbeState sampleTimers).2 rfl rfl

/-- The mean reported for the latency samples equals the arithmetic mean of
the sample list. -/
theorem avgLatencyOf_eq_sum_div (xs : List ℚ) :
    avgLatencyOf xs = xs.sum / (xs.length : ℚ) := by
  cases xs with
  | nil => simp [avgLatencyOf]
  | cons h t =>
    simp only [avgLatencyOf, jsReduceSum]
    rw [if_pos (by simp), foldl_add_eq_add_sum, zero_add]

/-- The variance computed for the jitter equals the population variance of
the sample list. -/
theorem jitterVarianceOf_eq (xs : List ℚ) :
    jitterVarianceOf xs
      = ((xs.map (fun v => (v - xs.sum / (xs.length : ℚ)) ^ 2)).sum) / (xs.length : ℚ) := by
  cases xs with
  | nil => simp [jitterVarianceOf]
  | cons h t =>
    simp only [jitterVarianceOf]
    rw [if_pos (by simp), foldl_add_map_eq_add_sum, zero_add]
    simp only [avgLatencyOf_eq_sum_div]

/-- Claim C7: the instantaneous sample pushed by the statistics sampler is
(bytes sent since the previous tick times 8) divided by (elapsed seconds
since that tick times 1048576); the live displayed figure is the
arithmetic mean of the samples collected so far; and the final-report
average is (total bytes sent times 8) divided by (1048576 times the
elapsed seconds of the whole run) — two different formulas, both present. -/
theorem c7_throughput_formulas (now lastUpdate lastBytesSent : ℚ) (st : SpeedTestState)
    (xs : List ℚ) (bytesSent startTime endTime : ℚ)
    (hdt : 0 < (now - lastUpdate) / 1000) (hxs : xs ≠ []) :
    (statsCollectionTick now lastUpdate lastBytesSent st).throughputTests
      = st.throughputTests
        ++ [(((st.bytesSent : ℚ) - lastBytesSent) * 8) / (((now - lastUpdate) / 1000) * 1048576)]
  ∧ avgThroughputLive xs = xs.sum / (xs.length : ℚ)
  ∧ finalAvgThroughput bytesSent startTime endTime
      = (bytesSent * 8) / (1048576 * ((endTime - startTime) / 1000)) := by
  refine ⟨?_, ?_, ?_⟩
  · simp only [statsCollectionTick]
    rw [if_pos hdt]
    norm_num [mul_assoc]
  · have hlen : 0 < xs.length := List.length_pos.mpr hxs
    simp only [avgThroughputLive, jsReduceSum]
    rw [if_pos hlen, foldl_add_eq_add_sum, zero_add]
  · simp only [finalAvgThroughput]
    rw [div_div]
    norm_num

/-- Claim C7 witness: the three throughput formulas evaluated on concrete
data. -/
theorem c7_throughput_formulas_witness :
    (statsCollectionTick 2000 1000 0 sampleProbeState).throughputTests
      = sampleProbeState.throughputTests
        ++ [(((sampleProbeState.bytesSent : ℚ) - 0) * 8) / (((2000 - 1000) / 1000) * 1048576)]
  ∧ avgThroughputLive [3] = [3].sum / (([3] : List ℚ).length : ℚ)
  ∧ finalAvgThroughput 5 1000 3000 = (5 * 8) / (1048576 * ((3000 - 1000) / 1000)) :=
  c7_throughput_formulas 2000 1000 0 sampleProbeState [3] 5 1000 3000
    (by norm_num) (by simp)

/-- Claim C8: the reported average, minimum and maximum latency are the
arithmetic mean, minimum and maximum of the latency-sample sequence, all 0
on the empty sequence; the variance under the jitter square root is the
population variance sum of (x - mean) squared over n, it is 0 on the empty
sequence and 0 on a single sample, so the reported jitter (its square
root) is 0 — a number, never NaN — in both cases. -/
theorem c8_latency_statistics (xs : List ℚ) (x : ℚ) :
    avgLatencyOf xs = xs.sum / (xs.length : ℚ)
  ∧ finalMinLatency xs = xs.min?.getD 0
  ∧ finalMaxLatency xs = xs.max?.getD 0
  ∧ jitterVarianceOf xs
      = ((xs.map (fun v => (v - xs.sum / (xs.length : ℚ)) ^ 2)).sum) / (xs.length : ℚ)
  ∧ avgLatencyOf [] = 0 ∧ jitterVarianceOf ([] : List ℚ) = 0
  ∧ finalMinLatency ([] : List ℚ) = 0 ∧ finalMaxLatency ([] : List ℚ) = 0
  ∧ jitterVarianceOf [x] = 0
  ∧ Real.sqrt ((jitterVarianceOf [x] : ℚ) : ℝ) = 0 := by
  have hsingle : jitterVarianceOf [x] = 0 := by
    rw [jitterVarianceOf_eq]
    simp
  refine ⟨avgLatencyOf_eq_sum_div xs, ?_, ?_, jitterVarianceOf_eq xs,
    by simp [avgLatencyOf], by simp [jitterVarianceOf],
    by simp [finalMinLatency], by simp [finalMaxLatency],
    hsingle, by rw [hsingle]; simp⟩
  · cases xs with
    | nil => simp [finalMinLatency]
    | cons h t => simp [finalMinLatency, jsMathMin, List.min?]
  · cases xs with
    | nil => simp [finalMaxLatency]
    | cons h t => simp [finalMaxLatency, jsMathMax, List.max?]

/-- Claim C9: an inbound message that is not valid JSON or whose type tag
is not one of the four recognized speed-test tags never reaches
handleSpeedTestPacket: the handler does not throw (it is total), leaves
the probe state unchanged, sends no reply, and routes the message to the
default chat handling. -/
theorem c9_unrecognized_routes_to_chat (channelOpen : Bool) (now : ℚ) (m : ChannelMsg)
    (st : SpeedTestState) (h : isSpeedTestPacket m = false) :
    onChannelMessage channelOpen now m st = (st, MsgRoute.chatRoute, []) := by
  simp [onChannelMessage, h]

/-- Claim C9 witness: a plain text chat message is routed to chat with the
probe state untouched. -/
theorem c9_unrecognized_routes_to_chat_witness :
    onChannelMessage true 0 (ChannelMsg.rawText "hello") sampleProbeState
      = (sampleProbeState, MsgRoute.chatRoute, []) :=
  c9_unrecognized_routes_to_chat true 0 (ChannelMsg.rawText "hello") sampleProbeState rfl

/-- Claim C10: stopSpeedTest on an inactive session returns immediately and
leaves every probe field and the timer table untouched. -/
theorem c10_stop_noop_when_not_running (now : ℚ) (st : SpeedTestState) (ts : TimerSys)
    (h : st.isRunning = false) :
    stopSpeedTest now st ts = (st, ts) := by
  simp [stopSpeedTest, h]

/-- Claim C10 witness: stopping the idle sample state changes nothing. -/
theorem c10_stop_noop_when_not_running_witness :
    stopSpeedTest 999 sampleProbeState sampleTimers = (sampleProbeState, sampleTimers) :=
  c10_stop_noop_when_not_running 999 sampleProbeState sampleTimers rfl
